import Mathlib

/-!
# Workflow handler (`services/workflows/internal/handler/main.go`)

A shallow embedding of the message handler, the authenticated transport, the
connection bootstrap and the log forwarder of the workflows service.

Calls that leave the process (the GraphQL API, the broker, the token signer)
are functions on an explicit world state `σ`, so that their outcome may depend
on everything that happened before.  Every run of a function of the source
yields the list of effects it performed, in order.
-/

namespace Handler

/-! ## Data model (lines 48-79) -/

/-- Go `LagoonLogMeta` (lines 48-70).  Pointer fields are options, `uint` is a
natural number below `2 ^ 64`. -/
structure LagoonLogMeta where
  BranchName : String := ""
  BuildName : String := ""
  BuildPhase : String := ""
  EndTime : String := ""
  Environment : String := ""
  EnvironmentID : Option Nat := none
  JobName : String := ""
  JobStatus : String := ""
  LogLink : String := ""
  MonitoringURLs : List String := []
  Project : String := ""
  ProjectID : Option Nat := none
  ProjectName : String := ""
  RemoteID : String := ""
  Route : String := ""
  Routes : List String := []
  StartTime : String := ""
  Services : List String := []
  Key : String := ""
  AdvancedData : String := ""
  Cluster : String := ""

/-- Go `LagoonLog` (lines 72-79).  `Meta` is a pointer: `none` is `nil`. -/
structure LagoonLog where
  Severity : String := ""
  Project : String := ""
  UUID : String := ""
  Event : String := ""
  Meta : Option LagoonLogMeta := none
  Message : String := ""

/-- The fields of `lagoonclient.Workflow` that the handler reads (lines 188-189). -/
structure Workflow where
  EnvironmentId : Int
  AdvancedTaskId : Int
  AdvancedTaskDetails : String

/-- Go conversion `int(u)` of a 64-bit `uint` (line 181): two's complement
reinterpretation. -/
def intOfUint (u : Nat) : Int :=
  if u % 2 ^ 64 < 2 ^ 63 then ((u % 2 ^ 64 : Nat) : Int)
  else ((u % 2 ^ 64 : Nat) : Int) - 2 ^ 64

/-! ## Effects of one handler run -/

/-- What the handler does to the outside, in order of execution. -/
inductive Effect where
  /-- Call of `lagoonclient.GetEnvironmentWorkflows` (line 182). -/
  | getEnvironmentWorkflows (projectId : Int) (environmentName : String)
  /-- Call of `lagoonclient.InvokeWorkflowOnEnvironment` (line 189) and
  whether it returned an error. -/
  | invokeWorkflowOnEnvironment (environmentId advancedTaskId : Int) (failed : Bool)
  /-- Call of `log.Println` on an error (lines 184, 191). -/
  | logPrintln (msg : String)
  /-- Call of `fmt.Println` on an invocation result (line 196). -/
  | fmtPrintln (msg : String)
  /-- Call of `message.Ack` (lines 193, 201). -/
  | ack (multiple : Bool)

/-- The remote API as the handler sees it: each call reads and updates the
world and returns a value or an error. -/
structure Remote (σ : Type) where
  GetEnvironmentWorkflows : σ → Int → String → Except String (List Workflow) × σ
  InvokeWorkflowOnEnvironment : σ → Int → Int → Except String String × σ

/-- What the handler needs from outside the source file: `json.Unmarshal`
into a `LagoonLog` (the updated target and the error, if any), the pure
matcher `lagoonclient.IsEventOfType`, and the remote API. -/
structure Deps (σ : Type) where
  Unmarshal : List UInt8 → LagoonLog → LagoonLog × Option String
  IsEventOfType : String → String → Bool
  remote : Remote σ

/-- How a run of the handler ends. -/
inductive Outcome where
  /-- The function returned to its caller. -/
  | returned
  /-- A run-time panic: the nil pointer dereference of line 176. -/
  | panicked
  deriving DecidableEq

/-- One run of the handler: effects in order, how it ended, the world after it. -/
structure Run (σ : Type) where
  trace : List Effect
  outcome : Outcome
  world : σ

/-- How the `for` loop of lines 187-199 is left. -/
inductive LoopExit where
  /-- The range is exhausted; control reaches line 201. -/
  | completed
  /-- The `return` of line 194. -/
  | returned
  deriving DecidableEq

/-- The loop of lines 187-199 over the workflows still to visit. -/
def forEachWorkflow {σ : Type} (D : Deps σ) (event : String) :
    List Workflow → σ → List Effect × LoopExit × σ
  | [], s => ([], LoopExit.completed, s)
  | wf :: rest, s =>
    if D.IsEventOfType event wf.AdvancedTaskDetails then
      match D.remote.InvokeWorkflowOnEnvironment s wf.EnvironmentId wf.AdvancedTaskId with
      | (Except.error err, s1) =>
        ([Effect.invokeWorkflowOnEnvironment wf.EnvironmentId wf.AdvancedTaskId true,
          Effect.logPrintln err, Effect.ack false], LoopExit.returned, s1)
      | (Except.ok result, s1) =>
        let r := forEachWorkflow D event rest s1
        (Effect.invokeWorkflowOnEnvironment wf.EnvironmentId wf.AdvancedTaskId false
          :: Effect.fmtPrintln result :: r.1, r.2.1, r.2.2)
    else forEachWorkflow D event rest s

/-- The function returned by `processingIncomingMessageQueueFactory`
(lines 171-202), run on a message with the given body.  The GraphQL client of
lines 179-180 only carries the endpoint and the transport to the two remote
calls, which are the functions of `D.remote`. -/
def processingIncomingMessageQueueFactory {σ : Type} (D : Deps σ)
    (body : List UInt8) (s : σ) : Run σ :=
  -- lines 173-174: the error of Unmarshal is discarded
  let incoming := (D.Unmarshal body {}).1
  -- line 176: `incoming.Meta.Environment` dereferences `incoming.Meta`
  match incoming.Meta with
  | none => { trace := [], outcome := Outcome.panicked, world := s }
  | some m =>
    let environmentName := m.Environment
    match m.ProjectID with
    | some pid =>
      if environmentName ≠ "" then
        let projectId := intOfUint pid
        match D.remote.GetEnvironmentWorkflows s projectId environmentName with
        | (Except.error err, s1) =>
          -- lines 183-186: log and return
          { trace := [Effect.getEnvironmentWorkflows projectId environmentName,
                      Effect.logPrintln err],
            outcome := Outcome.returned, world := s1 }
        | (Except.ok environmentWorkflows, s1) =>
          let r := forEachWorkflow D incoming.Event environmentWorkflows s1
          match r.2.1 with
          | LoopExit.returned =>
            { trace := Effect.getEnvironmentWorkflows projectId environmentName :: r.1,
              outcome := Outcome.returned, world := r.2.2 }
          | LoopExit.completed =>
            { trace := Effect.getEnvironmentWorkflows projectId environmentName
                        :: (r.1 ++ [Effect.ack false]),
              outcome := Outcome.returned, world := r.2.2 }
      else { trace := [Effect.ack false], outcome := Outcome.returned, world := s }
    | none => { trace := [Effect.ack false], outcome := Outcome.returned, world := s }

/-! ## Observations on a trace -/

/-- Number of `message.Ack` calls in a trace. -/
def ackCount : List Effect → Nat
  | [] => 0
  | Effect.ack _ :: t => ackCount t + 1
  | _ :: t => ackCount t

/-- Number of `GetEnvironmentWorkflows` calls in a trace. -/
def lookupCount : List Effect → Nat
  | [] => 0
  | Effect.getEnvironmentWorkflows _ _ :: t => lookupCount t + 1
  | _ :: t => lookupCount t

/-- The `(EnvironmentId, AdvancedTaskId)` arguments of the invocation calls of
a trace, in order. -/
def invokeCalls : List Effect → List (Int × Int)
  | [] => []
  | Effect.invokeWorkflowOnEnvironment e a _ :: t => (e, a) :: invokeCalls t
  | _ :: t => invokeCalls t

/-- For each invocation call of a trace, in order, whether it returned an error. -/
def invokeFailed : List Effect → List Bool
  | [] => []
  | Effect.invokeWorkflowOnEnvironment _ _ f :: t => f :: invokeFailed t
  | _ :: t => invokeFailed t

/-- The `(EnvironmentId, AdvancedTaskId)` pairs of the workflows of a list whose
trigger matches the event, in the order of the list. -/
def matching (IsEventOfType : String → String → Bool) (event : String)
    (wfs : List Workflow) : List (Int × Int) :=
  (wfs.filter fun wf => IsEventOfType event wf.AdvancedTaskDetails).map
    fun wf => (wf.EnvironmentId, wf.AdvancedTaskId)

/-! ## The authenticated transport (lines 151-168) -/

/-- Go `LagoonAPI` (lines 33-39). -/
structure LagoonAPI where
  Endpoint : String := ""
  JWTAudience : String := ""
  TokenSigningKey : String := ""
  JWTSubject : String := ""
  JWTIssuer : String := ""

/-- Go `Messaging` (lines 87-93); `κ` is `mq.Config`, whose fields this file
does not read. -/
structure Messaging (κ : Type) where
  Config : κ
  LagoonAPI : LagoonAPI
  ConnectionAttempts : Int
  ConnectionRetryInterval : Int
  EnableDebug : Bool

/-- NewMessaging (lines 96-104). -/
def NewMessaging {κ : Type} (config : κ) (lagoonAPI : LagoonAPI) (startupAttempts : Int)
    (startupInterval : Int) (enableDebug : Bool) : Messaging κ :=
  { Config := config, LagoonAPI := lagoonAPI, ConnectionAttempts := startupAttempts,
    ConnectionRetryInterval := startupInterval, EnableDebug := enableDebug }

/-- Go `http.Header`, a map from canonical header names to their values;
`none` is an absent key. -/
abbrev Header := String → Option (List String)

/-- Go `Header.Set` for a key already in canonical form, as "Authorization"
is: the key is bound to the single value, replacing what it held. -/
def Header.Set (h : Header) (key value : String) : Header :=
  fun k => if k = key then some [value] else h k

/-- Go `Header.Get`: the first value of the key, or the empty string. -/
def Header.Get (h : Header) (key : String) : String :=
  match h key with
  | some (v :: _) => v
  | _ => ""

/-- The parts of `http.Request` a round tripper sees. -/
structure Request where
  Method : String
  URL : String
  Header : Header
  Body : List UInt8

/-- The parts of `http.Response` handed back to the caller. -/
structure Response where
  StatusCode : Int
  Body : List UInt8

/-- What `RoundTrip` calls: the token generator `jwt.OneMinuteAdminToken`
(signing key, audience, subject, issuer; returns the token and the error, if
any) and the wrapped round tripper (returns the response and the error). -/
structure TransportDeps (σ : Type) where
  OneMinuteAdminToken : σ → String → String → String → String → (String × Option String) × σ
  wrapped : σ → Request → (Option Response × Option String) × σ

/-- Effects of one `RoundTrip`. -/
inductive TransportEffect where
  /-- Call of `jwt.OneMinuteAdminToken` (line 158). -/
  | oneMinuteAdminToken (signingKey audience subject issuer : String)
  /-- Call of `log.Println` on the error (line 162). -/
  | logPrintln (msg : String)
  /-- Call of the wrapped transport, which performs the network request
  (line 167). -/
  | wrappedRoundTrip (req : Request)

/-- One run of `RoundTrip`: effects in order, the returned pair, the world
after it. -/
structure TransportRun (σ : Type) where
  trace : List TransportEffect
  response : Option Response
  err : Option String
  world : σ

/-- Method `authedTransport.RoundTrip` (lines 156-168); `h` is `t.h` and
`T.wrapped` is `t.wrapped`. -/
def RoundTrip {σ κ : Type} (T : TransportDeps σ) (h : Messaging κ) (req : Request)
    (s : σ) : TransportRun σ :=
  match T.OneMinuteAdminToken s h.LagoonAPI.TokenSigningKey h.LagoonAPI.JWTAudience
      h.LagoonAPI.JWTSubject h.LagoonAPI.JWTIssuer with
  | ((_, some err), s1) =>
    -- lines 159-165: the token was not generated
    { trace := TransportEffect.oneMinuteAdminToken h.LagoonAPI.TokenSigningKey
                  h.LagoonAPI.JWTAudience h.LagoonAPI.JWTSubject h.LagoonAPI.JWTIssuer
                :: (if h.EnableDebug then [TransportEffect.logPrintln err] else []),
      response := none, err := some err, world := s1 }
  | ((token, none), s1) =>
    let req1 := { req with Header := req.Header.Set "Authorization" ("bearer " ++ token) }
    let r := T.wrapped s1 req1
    { trace := [TransportEffect.oneMinuteAdminToken h.LagoonAPI.TokenSigningKey
                  h.LagoonAPI.JWTAudience h.LagoonAPI.JWTSubject h.LagoonAPI.JWTIssuer,
                TransportEffect.wrappedRoundTrip req1],
      response := r.1.1, err := r.1.2, world := r.2 }

/-- Number of token generator calls in a trace. -/
def tokenCalls : List TransportEffect → Nat
  | [] => 0
  | TransportEffect.oneMinuteAdminToken _ _ _ _ :: t => tokenCalls t + 1
  | _ :: t => tokenCalls t

/-- The requests handed to the wrapped transport in a trace, in order. -/
def wrappedRequests : List TransportEffect → List Request
  | [] => []
  | TransportEffect.wrappedRoundTrip r :: t => r :: wrappedRequests t
  | _ :: t => wrappedRequests t

/-! ## Connection bootstrap (lines 107-131) -/

/-- Effects of the bootstrap, in order of execution. -/
inductive BootEffect where
  /-- Call of `mq.New` (line 115): one connection attempt. -/
  | mqNew
  /-- Call of `log.Println` with the error and the retry message (line 117). -/
  | logPrintln (err : String) (msg : String)
  /-- Call of `time.Sleep` with a duration in nanoseconds (line 125). -/
  | sleep (nanoseconds : Int)
  /-- Call of `log.Fatalf` (line 130): the process exits. -/
  | logFatalf (msg : String)

/-- Go `int64` arithmetic wraps around: the value of a result in two's
complement. -/
def wrapInt64 (x : Int) : Int := (x + 2 ^ 63) % 2 ^ 64 - 2 ^ 63

/-- Go `time.Second`, in nanoseconds. -/
def Second : Int := 1000000000

/-- The error `try.Do` returns once the attempt counter passes
`try.MaxRetries`. -/
def errMaxRetriesReached : String := "exceeded retry limit"

/-- The loop of `try.Do` (github.com/matryer/try): call `fn` with the attempt
number; stop when it asks not to continue or returns no error; otherwise count
the attempt and give up with `errMaxRetriesReached` once the counter passes
`MaxRetries`.  The first argument bounds the number of rounds; `none` is
returned only when it is used up. -/
def tryDoLoop {τ : Type} (MaxRetries : Int)
    (fn : τ → Int → List BootEffect × (Bool × Option String) × τ) :
    Nat → Int → τ → Option (List BootEffect × Option String × τ)
  | 0, _, _ => none
  | fuel + 1, attempt, s =>
    let r := fn s attempt
    let cont := r.2.1.1
    let err := r.2.1.2
    if !cont || err.isNone then some (r.1, err, r.2.2)
    else if attempt + 1 > MaxRetries then some (r.1, some errMaxRetriesReached, r.2.2)
    else
      match tryDoLoop MaxRetries fn fuel (attempt + 1) r.2.2 with
      | none => none
      | some (t, e, s1) => some (r.1 ++ t, e, s1)

/-- Library function `try.Do`: attempts are numbered from 1.  At most
`max 1 MaxRetries` rounds are run. -/
def tryDo {τ : Type} (MaxRetries : Int)
    (fn : τ → Int → List BootEffect × (Bool × Option String) × τ) (s : τ) :
    Option (List BootEffect × Option String × τ) :=
  tryDoLoop MaxRetries fn (MaxRetries.toNat + 1) 1 s

/-- The callback handed to `try.Do` (lines 113-128).  The state pairs the
world with the captured variable `messageQueue`; `New` is `mq.New`. -/
def connectAttempt {σ κ μ : Type} (New : σ → κ → Except String μ × σ) (h : Messaging κ)
    (st : σ × Option μ) (attempt : Int) :
    List BootEffect × (Bool × Option String) × (σ × Option μ) :=
  match New st.1 h.Config with
  | (Except.error err, s1) =>
    ([BootEffect.mqNew,
      BootEffect.logPrintln err
        ("Failed to initialize message queue manager, retrying in "
          ++ toString h.ConnectionRetryInterval ++ " seconds, attempt "
          ++ toString attempt ++ "/" ++ toString h.ConnectionAttempts),
      BootEffect.sleep (wrapInt64 (wrapInt64 h.ConnectionRetryInterval * Second))],
     (decide (attempt < h.ConnectionAttempts), some err), (s1, none))
  | (Except.ok q, s1) =>
    ([BootEffect.mqNew], (decide (attempt < h.ConnectionAttempts), none), (s1, some q))

/-- How the bootstrap of `Consumer` ends. -/
inductive BootOutcome (μ : Type) where
  /-- Line 130: `log.Fatalf` ends the process. -/
  | fatal
  /-- Line 132 is reached with the connection; the consumption loop follows. -/
  | consuming (messageQueue : Option μ)

/-- The bootstrap of `Messaging.Consumer` (lines 110-131): the retry loop and
the test of its error.  `MaxRetries` is the package variable `try.MaxRetries`
(10 unless changed). -/
def Consumer {σ κ μ : Type} (New : σ → κ → Except String μ × σ) (MaxRetries : Int)
    (h : Messaging κ) (s : σ) : Option (List BootEffect × BootOutcome μ × σ) :=
  match tryDo MaxRetries (connectAttempt New h) (s, none) with
  | none => none
  | some (t, some err, st) =>
    some (t ++ [BootEffect.logFatalf
            ("Finally failed to initialize message queue manager: " ++ err)],
          BootOutcome.fatal, st.1)
  | some (t, none, st) => some (t, BootOutcome.consuming st.2, st.1)

/-- Number of connection attempts in a trace. -/
def attempts : List BootEffect → Nat
  | [] => 0
  | BootEffect.mqNew :: t => attempts t + 1
  | _ :: t => attempts t

/-- Total time slept in a trace, in nanoseconds; `time.Sleep` returns at once
on a duration that is not positive. -/
def slept : List BootEffect → Int
  | [] => 0
  | BootEffect.sleep d :: t => max d 0 + slept t
  | _ :: t => slept t

/-! ## Log forwarding (lines 206-219) -/

/-- Effects of `toLagoonLogs`. -/
inductive ForwardEffect where
  /-- Call of `log.Println` (lines 210, 215). -/
  | logPrintln (msg : String)
  /-- Call of `messageQueue.AsyncProducer` (line 213). -/
  | asyncProducer (name : String)
  /-- Call of `producer.Produce` (line 218) on the producer of that name. -/
  | produce (name : String) (data : List UInt8)

/-- Method `Messaging.toLagoonLogs` (lines 206-219).  `Marshal` is
`json.Marshal` on the message type `M` (the bytes and the error, if any);
`AsyncProducer` is the method of the queue manager (the error, if any). -/
def toLagoonLogs {σ M : Type} (Marshal : M → List UInt8 × Option String)
    (AsyncProducer : σ → String → Option String × σ) (EnableDebug : Bool)
    (message : M) (s : σ) : List ForwardEffect × σ :=
  let msgBytes := (Marshal message).1
  let t1 : List ForwardEffect :=
    match (Marshal message).2 with
    | some err =>
      if EnableDebug then [ForwardEffect.logPrintln (err ++ " Unable to encode message as JSON")]
      else []
    | none => []
  match AsyncProducer s "lagoon-logs" with
  | (some err, s1) =>
    (t1 ++ [ForwardEffect.asyncProducer "lagoon-logs",
            ForwardEffect.logPrintln ("Failed to get async producer: " ++ err)], s1)
  | (none, s1) =>
    (t1 ++ [ForwardEffect.asyncProducer "lagoon-logs",
            ForwardEffect.produce "lagoon-logs" msgBytes], s1)

/-- The byte strings handed to `Produce` in a trace, in order. -/
def produced : List ForwardEffect → List (List UInt8)
  | [] => []
  | ForwardEffect.produce _ d :: t => d :: produced t
  | _ :: t => produced t

/-! ## Concrete worlds -/

/-- A world whose state counts the invocation calls made so far: `Unmarshal`
yields `incoming`, the matcher is string equality, the lookup returns `lookup`,
and the invocation calls numbered from `failFrom` on return an error. -/
def exampleDeps (incoming : LagoonLog) (lookup : Except String (List Workflow))
    (failFrom : Nat) : Deps Nat :=
  { Unmarshal := fun _ _ => (incoming, none)
    IsEventOfType := fun e d => e == d
    remote :=
      { GetEnvironmentWorkflows := fun s _ _ => (lookup, s)
        InvokeWorkflowOnEnvironment := fun s _ _ =>
          (if s < failFrom then Except.ok "started" else Except.error "invocation failed",
           s + 1) } }

/-- The event `deploy:finished` of project 12 on environment `main`. -/
def deployFinished : LagoonLog :=
  { Event := "deploy:finished", Meta := some { ProjectID := some 12, Environment := "main" } }

/-- The event `deploy:finished` on environment `main` without a project
identifier. -/
def deployFinishedNoProject : LagoonLog :=
  { Event := "deploy:finished", Meta := some { Environment := "main" } }

/-- Two workflows triggered by `deploy:finished`, around one that is not. -/
def twoMatching : List Workflow :=
  [{ EnvironmentId := 7, AdvancedTaskId := 3, AdvancedTaskDetails := "deploy:finished" },
   { EnvironmentId := 9, AdvancedTaskId := 5, AdvancedTaskDetails := "build:started" },
   { EnvironmentId := 8, AdvancedTaskId := 4, AdvancedTaskDetails := "deploy:finished" }]

/-- A message body: the bytes of `{}`. -/
def emptyObject : List UInt8 := [123, 125]

/-- A token generator that returns `token` and the error `tokenErr`, and a
wrapped transport that answers 200; the state counts the calls made. -/
def exampleTransport (token : String) (tokenErr : Option String) : TransportDeps Nat :=
  { OneMinuteAdminToken := fun s _ _ _ _ => ((token, tokenErr), s + 1)
    wrapped := fun s _ => ((some { StatusCode := 200, Body := [] }, none), s + 1) }

/-- A request without headers. -/
def exampleRequest : Request :=
  { Method := "POST", URL := "http://api/graphql", Header := fun _ => none, Body := [] }

/-- A configuration with the given attempt count and retry interval. -/
def exampleMessaging (connectionAttempts connectionRetryInterval : Int) : Messaging Unit :=
  NewMessaging () {} connectionAttempts connectionRetryInterval false

/-- A broker that refuses every connection; the state counts the attempts. -/
def refusingBroker : Nat → Unit → Except String Unit × Nat :=
  fun s _ => (Except.error "connection refused", s + 1)

/-- A producer lookup that succeeds, and one that fails. -/
def exampleProducer (err : Option String) : Unit → String → Option String × Unit :=
  fun s _ => (err, s)

/-- A `json.Marshal` that rejects every message: no bytes and an error. -/
def failingMarshal : Unit → List UInt8 × Option String :=
  fun _ => ([], some "json: unsupported value: NaN")

/-! ## Theorems -/

/-! ### The loop over the workflows -/

theorem invokeCalls_append (t u : List Effect) :
    invokeCalls (t ++ u) = invokeCalls t ++ invokeCalls u := by
  induction t with
  | nil => rfl
  | cons e t ih => cases e <;> simp [invokeCalls, ih]

theorem invokeFailed_append (t u : List Effect) :
    invokeFailed (t ++ u) = invokeFailed t ++ invokeFailed u := by
  induction t with
  | nil => rfl
  | cons e t ih => cases e <;> simp [invokeFailed, ih]

theorem ackCount_append (t u : List Effect) :
    ackCount (t ++ u) = ackCount t + ackCount u := by
  induction t with
  | nil => simp [ackCount]
  | cons e t ih =>
    cases e <;> simp [ackCount, ih]
    omega

theorem lookupCount_append (t u : List Effect) :
    lookupCount (t ++ u) = lookupCount t + lookupCount u := by
  induction t with
  | nil => simp [lookupCount]
  | cons e t ih =>
    cases e <;> simp [lookupCount, ih]
    omega

theorem invokeFailed_length (t : List Effect) :
    (invokeFailed t).length = (invokeCalls t).length := by
  induction t with
  | nil => rfl
  | cons e t ih => cases e <;> simp [invokeFailed, invokeCalls, ih]

/-- The loop never looks workflows up. -/
theorem forEachWorkflow_lookupCount {σ : Type} (D : Deps σ) (event : String)
    (wfs : List Workflow) (s : σ) :
    lookupCount (forEachWorkflow D event wfs s).1 = 0 := by
  induction wfs generalizing s with
  | nil => rfl
  | cons wf rest ih =>
    unfold forEachWorkflow
    split
    · split
      · simp [lookupCount]
      · simp [lookupCount, ih]
    · exact ih s

/-- The calls of the loop are a prefix of the matching workflows. -/
theorem forEachWorkflow_initial_calls {σ : Type} (D : Deps σ) (event : String)
    (wfs : List Workflow) (s : σ) :
    invokeCalls (forEachWorkflow D event wfs s).1 <+: matching D.IsEventOfType event wfs := by
  induction wfs generalizing s with
  | nil => simp [forEachWorkflow, invokeCalls, matching]
  | cons wf rest ih =>
    unfold forEachWorkflow
    split
    · rename_i hmatch
      split
      · simp [invokeCalls, matching, hmatch, List.prefix_cons_inj]
      · simp only [invokeCalls, matching, List.filter_cons, hmatch, if_true, List.map_cons,
          List.prefix_cons_inj]
        exact ih _
    · rename_i hmatch
      have := ih s
      simpa [matching, hmatch] using this

/-- A loop that runs to its end called every matching workflow, none of the
calls failed, and it did not acknowledge. -/
theorem forEachWorkflow_completed {σ : Type} (D : Deps σ) (event : String)
    (wfs : List Workflow) (s : σ)
    (h : (forEachWorkflow D event wfs s).2.1 = LoopExit.completed) :
    invokeCalls (forEachWorkflow D event wfs s).1 = matching D.IsEventOfType event wfs ∧
    invokeFailed (forEachWorkflow D event wfs s).1
      = List.replicate (matching D.IsEventOfType event wfs).length false ∧
    ackCount (forEachWorkflow D event wfs s).1 = 0 := by
  induction wfs generalizing s with
  | nil => simp [forEachWorkflow, invokeCalls, invokeFailed, ackCount, matching]
  | cons wf rest ih =>
    unfold forEachWorkflow at h ⊢
    split at h
    · rename_i hmatch
      simp only [hmatch, if_true]
      split at h
      · simp at h
      · rename_i result s1 heq
        simp only [heq]
        have := ih s1 h
        simp [invokeCalls, invokeFailed, ackCount, matching, hmatch, List.replicate_succ] at this ⊢
        exact this
    · rename_i hmatch
      simp only [hmatch]
      have := ih s h
      simpa [matching, hmatch] using this

/-- A loop left by `return` acknowledged once, and the failed call is its
last call. -/
theorem forEachWorkflow_returned {σ : Type} (D : Deps σ) (event : String)
    (wfs : List Workflow) (s : σ)
    (h : (forEachWorkflow D event wfs s).2.1 = LoopExit.returned) :
    (∃ k, invokeFailed (forEachWorkflow D event wfs s).1 = List.replicate k false ++ [true]) ∧
    ackCount (forEachWorkflow D event wfs s).1 = 1 := by
  induction wfs generalizing s with
  | nil => simp [forEachWorkflow] at h
  | cons wf rest ih =>
    unfold forEachWorkflow at h ⊢
    split at h
    · rename_i hmatch
      simp only [hmatch, if_true]
      split at h
      · rename_i err s1 heq
        simp only [heq]
        exact ⟨⟨0, by simp [invokeFailed]⟩, by simp [ackCount]⟩
      · rename_i result s1 heq
        simp only [heq]
        obtain ⟨⟨k, hk⟩, hack⟩ := ih s1 h
        refine ⟨⟨k + 1, ?_⟩, ?_⟩
        · simp [invokeFailed, hk, List.replicate_succ]
        · simpa [ackCount] using hack
    · rename_i hmatch
      simp only [hmatch]
      exact ih s h

/-! ### The handler -/

/-- The run of the handler on an eligible event whose lookup succeeded: the
lookup, the loop, and the acknowledgment of line 201 when the loop ran to its
end. -/
theorem handler_eligible_ok {σ : Type} (D : Deps σ) (body : List UInt8) (s s1 : σ)
    (m : LagoonLogMeta) (pid : Nat) (wfs : List Workflow)
    (hm : (D.Unmarshal body {}).1.Meta = some m) (hp : m.ProjectID = some pid)
    (he : m.Environment ≠ "")
    (hl : D.remote.GetEnvironmentWorkflows s (intOfUint pid) m.Environment
      = (Except.ok wfs, s1)) :
    (processingIncomingMessageQueueFactory D body s).outcome = Outcome.returned ∧
    (processingIncomingMessageQueueFactory D body s).trace
      = Effect.getEnvironmentWorkflows (intOfUint pid) m.Environment
        :: ((forEachWorkflow D (D.Unmarshal body {}).1.Event wfs s1).1
          ++ (if (forEachWorkflow D (D.Unmarshal body {}).1.Event wfs s1).2.1
                = LoopExit.completed then [Effect.ack false] else [])) := by
  unfold processingIncomingMessageQueueFactory
  simp only [hm, hp, he, hl, ne_eq, not_false_eq_true, if_true]
  cases hx : (forEachWorkflow D (D.Unmarshal body {}).1.Event wfs s1).2.1 <;> simp

/-- The run of the handler on a body that decodes without a metadata block. -/
theorem handler_no_meta {σ : Type} (D : Deps σ) (body : List UInt8) (s : σ)
    (hm : (D.Unmarshal body {}).1.Meta = none) :
    processingIncomingMessageQueueFactory D body s
      = { trace := [], outcome := Outcome.panicked, world := s } := by
  unfold processingIncomingMessageQueueFactory
  simp only [hm]

/-- The run of the handler on an event that is not eligible. -/
theorem handler_not_eligible {σ : Type} (D : Deps σ) (body : List UInt8) (s : σ)
    (m : LagoonLogMeta) (hm : (D.Unmarshal body {}).1.Meta = some m)
    (h : m.ProjectID = none ∨ m.Environment = "") :
    processingIncomingMessageQueueFactory D body s
      = { trace := [Effect.ack false], outcome := Outcome.returned, world := s } := by
  unfold processingIncomingMessageQueueFactory
  simp only [hm]
  cases hp : m.ProjectID with
  | none => rfl
  | some pid =>
    rcases h with h | h
    · simp [hp] at h
    · simp [h]

/-- The run of the handler on an eligible event whose lookup failed. -/
theorem handler_lookup_error {σ : Type} (D : Deps σ) (body : List UInt8) (s s1 : σ)
    (m : LagoonLogMeta) (pid : Nat) (err : String)
    (hm : (D.Unmarshal body {}).1.Meta = some m) (hp : m.ProjectID = some pid)
    (he : m.Environment ≠ "")
    (hl : D.remote.GetEnvironmentWorkflows s (intOfUint pid) m.Environment
      = (Except.error err, s1)) :
    processingIncomingMessageQueueFactory D body s
      = { trace := [Effect.getEnvironmentWorkflows (intOfUint pid) m.Environment,
                    Effect.logPrintln err],
          outcome := Outcome.returned, world := s1 } := by
  unfold processingIncomingMessageQueueFactory
  simp only [hm, hp, he, hl, ne_eq, not_false_eq_true, if_true]

/-- The acknowledgments of a run on an eligible event whose lookup succeeded:
exactly one. -/
theorem handler_eligible_ok_ack {σ : Type} (D : Deps σ) (body : List UInt8) (s s1 : σ)
    (m : LagoonLogMeta) (pid : Nat) (wfs : List Workflow)
    (hm : (D.Unmarshal body {}).1.Meta = some m) (hp : m.ProjectID = some pid)
    (he : m.Environment ≠ "")
    (hl : D.remote.GetEnvironmentWorkflows s (intOfUint pid) m.Environment
      = (Except.ok wfs, s1)) :
    ackCount (processingIncomingMessageQueueFactory D body s).trace = 1 := by
  rw [(handler_eligible_ok D body s s1 m pid wfs hm hp he hl).2]
  cases hx : (forEachWorkflow D (D.Unmarshal body {}).1.Event wfs s1).2.1 with
  | completed =>
    have := (forEachWorkflow_completed D _ wfs s1 hx).2.2
    simp [ackCount, ackCount_append, this]
  | returned =>
    have := (forEachWorkflow_returned D _ wfs s1 hx).2
    simp [ackCount, this]

/-- The invocation calls of a run on an eligible event whose lookup succeeded
are those of the loop. -/
theorem handler_eligible_ok_calls {σ : Type} (D : Deps σ) (body : List UInt8) (s s1 : σ)
    (m : LagoonLogMeta) (pid : Nat) (wfs : List Workflow)
    (hm : (D.Unmarshal body {}).1.Meta = some m) (hp : m.ProjectID = some pid)
    (he : m.Environment ≠ "")
    (hl : D.remote.GetEnvironmentWorkflows s (intOfUint pid) m.Environment
      = (Except.ok wfs, s1)) :
    invokeCalls (processingIncomingMessageQueueFactory D body s).trace
      = invokeCalls (forEachWorkflow D (D.Unmarshal body {}).1.Event wfs s1).1 ∧
    invokeFailed (processingIncomingMessageQueueFactory D body s).trace
      = invokeFailed (forEachWorkflow D (D.Unmarshal body {}).1.Event wfs s1).1 := by
  rw [(handler_eligible_ok D body s s1 m pid wfs hm hp he hl).2]
  constructor
  · simp only [invokeCalls, invokeCalls_append]
    split <;> simp [invokeCalls]
  · simp only [invokeFailed, invokeFailed_append]
    split <;> simp [invokeFailed]

/-- The handler acknowledges a message at most once. -/
theorem handler_ack_at_most_once {σ : Type} (D : Deps σ) (body : List UInt8) (s : σ) :
    ackCount (processingIncomingMessageQueueFactory D body s).trace ≤ 1 := by
  cases hm : (D.Unmarshal body {}).1.Meta with
  | none => simp [handler_no_meta D body s hm, ackCount]
  | some m =>
    cases hp : m.ProjectID with
    | none => simp [handler_not_eligible D body s m hm (Or.inl hp), ackCount]
    | some pid =>
      by_cases he : m.Environment = ""
      · simp [handler_not_eligible D body s m hm (Or.inr he), ackCount]
      · rcases hl : D.remote.GetEnvironmentWorkflows s (intOfUint pid) m.Environment
          with ⟨err | wfs, s1⟩
        · simp [handler_lookup_error D body s s1 m pid err hm hp he hl, ackCount]
        · exact le_of_eq (handler_eligible_ok_ack D body s s1 m pid wfs hm hp he hl)

/-! ### Claims about the handler -/

/-- C1, evaluated on the code: two runs of the handler that end without any
acknowledgment.  On an eligible event whose workflow lookup fails the handler
logs and returns (lines 183-186); on a body that decodes without a metadata
block it panics at line 176 before any effect. -/
theorem C1_runs_without_ack :
    ackCount (processingIncomingMessageQueueFactory
      (exampleDeps deployFinished (Except.error "lookup failed") 0) emptyObject 0).trace = 0 ∧
    (processingIncomingMessageQueueFactory
      (exampleDeps deployFinished (Except.error "lookup failed") 0) emptyObject 0).outcome
        = Outcome.returned ∧
    ackCount (processingIncomingMessageQueueFactory
      (exampleDeps {} (Except.ok twoMatching) 2) emptyObject 0).trace = 0 ∧
    (processingIncomingMessageQueueFactory
      (exampleDeps {} (Except.ok twoMatching) 2) emptyObject 0).outcome = Outcome.panicked := by
  refine ⟨?_, ?_, ?_, ?_⟩ <;> rfl

/-- C2 as stated fails: with two workflows matching the event and every
invocation failing, the handler issues one invocation call, `(7, 3)`, while
two workflows match. -/
theorem C2_counterexample :
    invokeCalls (processingIncomingMessageQueueFactory
      (exampleDeps deployFinished (Except.ok twoMatching) 0) emptyObject 0).trace = [(7, 3)] ∧
    matching (exampleDeps deployFinished (Except.ok twoMatching) 0).IsEventOfType
      deployFinished.Event twoMatching = [(7, 3), (8, 4)] := by
  constructor <;> rfl

/-- C2, amended: on an eligible event whose lookup succeeded, if no invocation
call other than that of the last matching workflow fails, the invocation calls
are the `(EnvironmentId, AdvancedTaskId)` pairs of exactly the matching
workflows, in the order of the returned list. -/
theorem C2_calls_eq_matching {σ : Type} (D : Deps σ) (body : List UInt8) (s s1 : σ)
    (m : LagoonLogMeta) (pid : Nat) (wfs : List Workflow)
    (hm : (D.Unmarshal body {}).1.Meta = some m) (hp : m.ProjectID = some pid)
    (he : m.Environment ≠ "")
    (hl : D.remote.GetEnvironmentWorkflows s (intOfUint pid) m.Environment
      = (Except.ok wfs, s1))
    (hok : ∀ i, i + 1 < (matching D.IsEventOfType (D.Unmarshal body {}).1.Event wfs).length →
      (invokeFailed (processingIncomingMessageQueueFactory D body s).trace)[i]? ≠ some true) :
    invokeCalls (processingIncomingMessageQueueFactory D body s).trace
      = matching D.IsEventOfType (D.Unmarshal body {}).1.Event wfs := by
  obtain ⟨hc, hf⟩ := handler_eligible_ok_calls D body s s1 m pid wfs hm hp he hl
  rw [hf] at hok
  rw [hc]
  cases hx : (forEachWorkflow D (D.Unmarshal body {}).1.Event wfs s1).2.1 with
  | completed => exact (forEachWorkflow_completed D _ wfs s1 hx).1
  | returned =>
    obtain ⟨⟨k, hk⟩, _⟩ := forEachWorkflow_returned D _ wfs s1 hx
    have hpre := forEachWorkflow_initial_calls D (D.Unmarshal body {}).1.Event wfs s1
    have hlen := invokeFailed_length (forEachWorkflow D (D.Unmarshal body {}).1.Event wfs s1).1
    rw [hk] at hlen
    simp only [List.length_append, List.length_replicate, List.length_singleton] at hlen
    have hlast : (invokeFailed (forEachWorkflow D (D.Unmarshal body {}).1.Event wfs s1).1)[k]?
        = some true := by
      rw [hk]
      simp [List.getElem?_append_right]
    have hge : ¬ (k + 1 < (matching D.IsEventOfType (D.Unmarshal body {}).1.Event wfs).length) :=
      fun hlt => hok k hlt hlast
    exact List.IsPrefix.eq_of_length_le hpre (by omega)

/-- C2 at a concrete input: two matching workflows, the first invocation
succeeds and the second fails; both are called, in order. -/
theorem C2_calls_eq_matching_witness :
    invokeCalls (processingIncomingMessageQueueFactory
      (exampleDeps deployFinished (Except.ok twoMatching) 1) emptyObject 0).trace
      = [(7, 3), (8, 4)] ∧
    invokeFailed (processingIncomingMessageQueueFactory
      (exampleDeps deployFinished (Except.ok twoMatching) 1) emptyObject 0).trace
      = [false, true] :=
  ⟨C2_calls_eq_matching (exampleDeps deployFinished (Except.ok twoMatching) 1) emptyObject 0 0
      { ProjectID := some 12, Environment := "main" } 12 twoMatching rfl rfl (by decide) rfl
      (by
        intro i hi
        have h2 : (matching (exampleDeps deployFinished (Except.ok twoMatching) 1).IsEventOfType
            ((exampleDeps deployFinished (Except.ok twoMatching) 1).Unmarshal emptyObject {}).1.Event
            twoMatching).length = 2 := rfl
        have hi0 : i = 0 := by omega
        subst hi0
        decide),
    rfl⟩

/-- C3: when the decoded event carries a metadata block whose `ProjectID` is
nil or whose `Environment` is empty, the handler makes no lookup call and no
invocation call, acknowledges the message exactly once and returns. -/
theorem C3_not_eligible_one_ack {σ : Type} (D : Deps σ) (body : List UInt8) (s : σ)
    (m : LagoonLogMeta) (hm : (D.Unmarshal body {}).1.Meta = some m)
    (h : m.ProjectID = none ∨ m.Environment = "") :
    lookupCount (processingIncomingMessageQueueFactory D body s).trace = 0 ∧
    invokeCalls (processingIncomingMessageQueueFactory D body s).trace = [] ∧
    ackCount (processingIncomingMessageQueueFactory D body s).trace = 1 ∧
    (processingIncomingMessageQueueFactory D body s).outcome = Outcome.returned := by
  rw [handler_not_eligible D body s m hm h]
  exact ⟨rfl, rfl, rfl, rfl⟩

/-- C3 at a concrete input: the event `deploy:finished` with metadata
`environment: main` and no project identifier. -/
theorem C3_not_eligible_one_ack_witness :
    deployFinishedNoProject.Meta = some { Environment := "main" } ∧
    lookupCount (processingIncomingMessageQueueFactory
      (exampleDeps deployFinishedNoProject (Except.ok twoMatching) 2) emptyObject 0).trace = 0 ∧
    invokeCalls (processingIncomingMessageQueueFactory
      (exampleDeps deployFinishedNoProject (Except.ok twoMatching) 2) emptyObject 0).trace = [] ∧
    ackCount (processingIncomingMessageQueueFactory
      (exampleDeps deployFinishedNoProject (Except.ok twoMatching) 2) emptyObject 0).trace = 1 ∧
    (processingIncomingMessageQueueFactory
      (exampleDeps deployFinishedNoProject (Except.ok twoMatching) 2) emptyObject 0).outcome
        = Outcome.returned :=
  ⟨rfl, C3_not_eligible_one_ack (exampleDeps deployFinishedNoProject (Except.ok twoMatching) 2)
    emptyObject 0 { Environment := "main" } rfl (Or.inl rfl)⟩

/-- C4: on an eligible event whose lookup succeeded, when an invocation call
returns an error the handler still acknowledges the message exactly once and
returns normally. -/
theorem C4_failed_invocation_acked {σ : Type} (D : Deps σ) (body : List UInt8) (s s1 : σ)
    (m : LagoonLogMeta) (pid : Nat) (wfs : List Workflow)
    (hm : (D.Unmarshal body {}).1.Meta = some m) (hp : m.ProjectID = some pid)
    (he : m.Environment ≠ "")
    (hl : D.remote.GetEnvironmentWorkflows s (intOfUint pid) m.Environment
      = (Except.ok wfs, s1))
    (_hfail : true ∈ invokeFailed (processingIncomingMessageQueueFactory D body s).trace) :
    ackCount (processingIncomingMessageQueueFactory D body s).trace = 1 ∧
    (processingIncomingMessageQueueFactory D body s).outcome = Outcome.returned :=
  ⟨handler_eligible_ok_ack D body s s1 m pid wfs hm hp he hl,
   (handler_eligible_ok D body s s1 m pid wfs hm hp he hl).1⟩

/-- C4 at a concrete input: two matching workflows, every invocation fails. -/
theorem C4_failed_invocation_acked_witness :
    invokeFailed (processingIncomingMessageQueueFactory
      (exampleDeps deployFinished (Except.ok twoMatching) 0) emptyObject 0).trace = [true] ∧
    ackCount (processingIncomingMessageQueueFactory
      (exampleDeps deployFinished (Except.ok twoMatching) 0) emptyObject 0).trace = 1 ∧
    (processingIncomingMessageQueueFactory
      (exampleDeps deployFinished (Except.ok twoMatching) 0) emptyObject 0).outcome
        = Outcome.returned :=
  ⟨rfl, C4_failed_invocation_acked (exampleDeps deployFinished (Except.ok twoMatching) 0)
    emptyObject 0 0 { ProjectID := some 12, Environment := "main" } 12 twoMatching rfl rfl
    (by decide) rfl (by decide)⟩

/-- C5, evaluated on the code: on an eligible event whose lookup returns an
error the handler issues no invocation call, and it returns without
acknowledging the message: its effects are the lookup and the log line. -/
theorem C5_lookup_error_not_acked {σ : Type} (D : Deps σ) (body : List UInt8) (s s1 : σ)
    (m : LagoonLogMeta) (pid : Nat) (err : String)
    (hm : (D.Unmarshal body {}).1.Meta = some m) (hp : m.ProjectID = some pid)
    (he : m.Environment ≠ "")
    (hl : D.remote.GetEnvironmentWorkflows s (intOfUint pid) m.Environment
      = (Except.error err, s1)) :
    invokeCalls (processingIncomingMessageQueueFactory D body s).trace = [] ∧
    ackCount (processingIncomingMessageQueueFactory D body s).trace = 0 ∧
    (processingIncomingMessageQueueFactory D body s).outcome = Outcome.returned := by
  rw [handler_lookup_error D body s s1 m pid err hm hp he hl]
  exact ⟨rfl, rfl, rfl⟩

/-- C5 at a concrete input: `deploy:finished` of project 12 on `main`, the
lookup fails. -/
theorem C5_lookup_error_not_acked_witness :
    invokeCalls (processingIncomingMessageQueueFactory
      (exampleDeps deployFinished (Except.error "lookup failed") 2) emptyObject 0).trace = [] ∧
    ackCount (processingIncomingMessageQueueFactory
      (exampleDeps deployFinished (Except.error "lookup failed") 2) emptyObject 0).trace = 0 ∧
    (processingIncomingMessageQueueFactory
      (exampleDeps deployFinished (Except.error "lookup failed") 2) emptyObject 0).outcome
        = Outcome.returned :=
  C5_lookup_error_not_acked (exampleDeps deployFinished (Except.error "lookup failed") 2)
    emptyObject 0 0 { ProjectID := some 12, Environment := "main" } 12 "lookup failed" rfl rfl
    (by decide) rfl

/-- C6, evaluated on the code: whenever the decoded `LagoonLog` has no
metadata block (`Meta` is nil, as after malformed JSON or an object without
`meta`), the handler panics at line 176, before any effect: nothing is
acknowledged. -/
theorem C6_nil_meta_panics {σ : Type} (D : Deps σ) (body : List UInt8) (s : σ)
    (hm : (D.Unmarshal body {}).1.Meta = none) :
    (processingIncomingMessageQueueFactory D body s).outcome = Outcome.panicked ∧
    (processingIncomingMessageQueueFactory D body s).trace = [] ∧
    ackCount (processingIncomingMessageQueueFactory D body s).trace = 0 := by
  rw [handler_no_meta D body s hm]
  exact ⟨rfl, rfl, rfl⟩

/-- C6 at a concrete input: the body `{}` leaves the zero value of
`LagoonLog` in place. -/
theorem C6_nil_meta_panics_witness :
    (processingIncomingMessageQueueFactory
      (exampleDeps {} (Except.ok twoMatching) 2) emptyObject 0).outcome = Outcome.panicked ∧
    (processingIncomingMessageQueueFactory
      (exampleDeps {} (Except.ok twoMatching) 2) emptyObject 0).trace = [] ∧
    ackCount (processingIncomingMessageQueueFactory
      (exampleDeps {} (Except.ok twoMatching) 2) emptyObject 0).trace = 0 :=
  C6_nil_meta_panics (exampleDeps {} (Except.ok twoMatching) 2) emptyObject 0 rfl

/-- C10: on an eligible event whose lookup succeeded, the invocation calls are
a prefix of the matching workflows in list order; either an invocation failed,
and then it is the last call and every call before it succeeded, or no
invocation failed and the calls are all the matching workflows. -/
theorem C10_calls_until_first_failure {σ : Type} (D : Deps σ) (body : List UInt8) (s s1 : σ)
    (m : LagoonLogMeta) (pid : Nat) (wfs : List Workflow)
    (hm : (D.Unmarshal body {}).1.Meta = some m) (hp : m.ProjectID = some pid)
    (he : m.Environment ≠ "")
    (hl : D.remote.GetEnvironmentWorkflows s (intOfUint pid) m.Environment
      = (Except.ok wfs, s1)) :
    invokeCalls (processingIncomingMessageQueueFactory D body s).trace
      <+: matching D.IsEventOfType (D.Unmarshal body {}).1.Event wfs ∧
    ((∃ k, invokeFailed (processingIncomingMessageQueueFactory D body s).trace
        = List.replicate k false ++ [true]) ∨
     (invokeFailed (processingIncomingMessageQueueFactory D body s).trace
        = List.replicate (matching D.IsEventOfType (D.Unmarshal body {}).1.Event wfs).length
            false ∧
      invokeCalls (processingIncomingMessageQueueFactory D body s).trace
        = matching D.IsEventOfType (D.Unmarshal body {}).1.Event wfs)) := by
  obtain ⟨hc, hf⟩ := handler_eligible_ok_calls D body s s1 m pid wfs hm hp he hl
  rw [hc, hf]
  refine ⟨forEachWorkflow_initial_calls D _ wfs s1, ?_⟩
  cases hx : (forEachWorkflow D (D.Unmarshal body {}).1.Event wfs s1).2.1 with
  | completed =>
    exact Or.inr ⟨(forEachWorkflow_completed D _ wfs s1 hx).2.1,
      (forEachWorkflow_completed D _ wfs s1 hx).1⟩
  | returned => exact Or.inl (forEachWorkflow_returned D _ wfs s1 hx).1

/-- C10 at a concrete input: three workflows of which the first and the third
match; the first invocation fails, so only `(7, 3)` is called. -/
theorem C10_calls_until_first_failure_witness :
    invokeCalls (processingIncomingMessageQueueFactory
      (exampleDeps deployFinished (Except.ok twoMatching) 0) emptyObject 0).trace
      <+: [(7, 3), (8, 4)] ∧
    ((∃ k, invokeFailed (processingIncomingMessageQueueFactory
        (exampleDeps deployFinished (Except.ok twoMatching) 0) emptyObject 0).trace
        = List.replicate k false ++ [true]) ∨
     (invokeFailed (processingIncomingMessageQueueFactory
        (exampleDeps deployFinished (Except.ok twoMatching) 0) emptyObject 0).trace
        = List.replicate 2 false ∧
      invokeCalls (processingIncomingMessageQueueFactory
        (exampleDeps deployFinished (Except.ok twoMatching) 0) emptyObject 0).trace
        = [(7, 3), (8, 4)])) :=
  C10_calls_until_first_failure (exampleDeps deployFinished (Except.ok twoMatching) 0)
    emptyObject 0 0 { ProjectID := some 12, Environment := "main" } 12 twoMatching rfl rfl
    (by decide) rfl

/-! ### The authenticated transport -/

/-- The run of `RoundTrip` when the token generator fails. -/
theorem RoundTrip_token_error {σ κ : Type} (T : TransportDeps σ) (h : Messaging κ)
    (req : Request) (s s1 : σ) (token err : String)
    (ht : T.OneMinuteAdminToken s h.LagoonAPI.TokenSigningKey h.LagoonAPI.JWTAudience
      h.LagoonAPI.JWTSubject h.LagoonAPI.JWTIssuer = ((token, some err), s1)) :
    RoundTrip T h req s
      = { trace := TransportEffect.oneMinuteAdminToken h.LagoonAPI.TokenSigningKey
                    h.LagoonAPI.JWTAudience h.LagoonAPI.JWTSubject h.LagoonAPI.JWTIssuer
                  :: (if h.EnableDebug then [TransportEffect.logPrintln err] else []),
          response := none, err := some err, world := s1 } := by
  unfold RoundTrip
  simp only [ht]

/-- The run of `RoundTrip` when the token generator succeeds. -/
theorem RoundTrip_token_ok {σ κ : Type} (T : TransportDeps σ) (h : Messaging κ)
    (req : Request) (s s1 : σ) (token : String)
    (ht : T.OneMinuteAdminToken s h.LagoonAPI.TokenSigningKey h.LagoonAPI.JWTAudience
      h.LagoonAPI.JWTSubject h.LagoonAPI.JWTIssuer = ((token, none), s1)) :
    RoundTrip T h req s
      = { trace := [TransportEffect.oneMinuteAdminToken h.LagoonAPI.TokenSigningKey
                      h.LagoonAPI.JWTAudience h.LagoonAPI.JWTSubject h.LagoonAPI.JWTIssuer,
                    TransportEffect.wrappedRoundTrip
                      { req with
                        Header := req.Header.Set "Authorization" ("bearer " ++ token) }],
          response := (T.wrapped s1
            { req with Header := req.Header.Set "Authorization" ("bearer " ++ token) }).1.1,
          err := (T.wrapped s1
            { req with Header := req.Header.Set "Authorization" ("bearer " ++ token) }).1.2,
          world := (T.wrapped s1
            { req with Header := req.Header.Set "Authorization" ("bearer " ++ token) }).2 } := by
  unfold RoundTrip
  simp only [ht]

/-- C7: `RoundTrip` calls the token generator exactly once.  When the
generator fails, `RoundTrip` returns no response and that error, and the
wrapped transport is not called.  When it succeeds with a token, the wrapped
transport is called exactly once, with the request whose `Authorization`
header is the single value `bearer ` followed by the token and which is
otherwise the request given, and its result is returned unchanged. -/
theorem C7_roundTrip {σ κ : Type} (T : TransportDeps σ) (h : Messaging κ) (req : Request)
    (s : σ) :
    tokenCalls (RoundTrip T h req s).trace = 1 ∧
    (∀ token err s1,
      T.OneMinuteAdminToken s h.LagoonAPI.TokenSigningKey h.LagoonAPI.JWTAudience
        h.LagoonAPI.JWTSubject h.LagoonAPI.JWTIssuer = ((token, some err), s1) →
      (RoundTrip T h req s).response = none ∧ (RoundTrip T h req s).err = some err ∧
      wrappedRequests (RoundTrip T h req s).trace = []) ∧
    (∀ token s1,
      T.OneMinuteAdminToken s h.LagoonAPI.TokenSigningKey h.LagoonAPI.JWTAudience
        h.LagoonAPI.JWTSubject h.LagoonAPI.JWTIssuer = ((token, none), s1) →
      ∃ sent : Request,
        wrappedRequests (RoundTrip T h req s).trace = [sent] ∧
        sent.Header "Authorization" = some ["bearer " ++ token] ∧
        sent.Header.Get "Authorization" = "bearer " ++ token ∧
        (∀ k, k ≠ "Authorization" → sent.Header k = req.Header k) ∧
        sent.Method = req.Method ∧ sent.URL = req.URL ∧ sent.Body = req.Body ∧
        (RoundTrip T h req s).response = (T.wrapped s1 sent).1.1 ∧
        (RoundTrip T h req s).err = (T.wrapped s1 sent).1.2) := by
  refine ⟨?_, ?_, ?_⟩
  · rcases ht : T.OneMinuteAdminToken s h.LagoonAPI.TokenSigningKey h.LagoonAPI.JWTAudience
      h.LagoonAPI.JWTSubject h.LagoonAPI.JWTIssuer with ⟨⟨token, _ | err⟩, s1⟩
    · rw [RoundTrip_token_ok T h req s s1 token ht]
      rfl
    · rw [RoundTrip_token_error T h req s s1 token err ht]
      cases h.EnableDebug <;> rfl
  · intro token err s1 ht
    rw [RoundTrip_token_error T h req s s1 token err ht]
    refine ⟨rfl, rfl, ?_⟩
    cases h.EnableDebug <;> rfl
  · intro token s1 ht
    refine ⟨{ req with Header := req.Header.Set "Authorization" ("bearer " ++ token) }, ?_⟩
    rw [RoundTrip_token_ok T h req s s1 token ht]
    refine ⟨rfl, by simp [Header.Set], by simp [Header.Set, Header.Get], ?_,
      rfl, rfl, rfl, rfl, rfl⟩
    intro k hk
    simp [Header.Set, hk]

/-- C7 at concrete inputs: a generator that fails, and one that returns the
token `abc`. -/
theorem C7_roundTrip_witness :
    tokenCalls (RoundTrip (exampleTransport "" (some "no signing key"))
      (exampleMessaging 10 30) exampleRequest 0).trace = 1 ∧
    ((RoundTrip (exampleTransport "" (some "no signing key"))
        (exampleMessaging 10 30) exampleRequest 0).response = none ∧
      (RoundTrip (exampleTransport "" (some "no signing key"))
        (exampleMessaging 10 30) exampleRequest 0).err = some "no signing key" ∧
      wrappedRequests (RoundTrip (exampleTransport "" (some "no signing key"))
        (exampleMessaging 10 30) exampleRequest 0).trace = []) ∧
    (wrappedRequests (RoundTrip (exampleTransport "abc" none)
        (exampleMessaging 10 30) exampleRequest 0).trace).map
      (fun r => r.Header "Authorization") = [some ["bearer abc"]] :=
  ⟨(C7_roundTrip (exampleTransport "" (some "no signing key")) (exampleMessaging 10 30)
      exampleRequest 0).1,
   (C7_roundTrip (exampleTransport "" (some "no signing key")) (exampleMessaging 10 30)
      exampleRequest 0).2.1 "" "no signing key" 1 rfl,
   by
    obtain ⟨sent, hs, hh, _⟩ := (C7_roundTrip (exampleTransport "abc" none)
      (exampleMessaging 10 30) exampleRequest 0).2.2 "abc" 1 rfl
    rw [hs]
    simpa using hh⟩

/-! ### The connection bootstrap -/

/-- Durations that fit: the interval in nanoseconds is computed without
wrapping. -/
theorem sleep_duration (I : Int) (h0 : 0 ≤ I) (h1 : I * Second < 2 ^ 63) :
    wrapInt64 (wrapInt64 I * Second) = I * Second := by
  unfold wrapInt64 Second at *
  have e1 : (I + 2 ^ 63) % 2 ^ 64 = I + 2 ^ 63 := Int.emod_eq_of_lt (by omega) (by omega)
  rw [e1]
  have e2 : I + 2 ^ 63 - 2 ^ 63 = I := by omega
  rw [e2]
  have e3 : (I * 1000000000 + 2 ^ 63) % 2 ^ 64 = I * 1000000000 + 2 ^ 63 :=
    Int.emod_eq_of_lt (by omega) (by omega)
  rw [e3]
  omega

/-- The retry loop returns whenever its bound covers the attempts left up to
`MaxRetries`. -/
theorem tryDoLoop_isSome {τ : Type} (MaxRetries : Int)
    (fn : τ → Int → List BootEffect × (Bool × Option String) × τ) (fuel : Nat) :
    ∀ (a : Int) (s : τ), 1 ≤ fuel → (MaxRetries - a + 1).toNat ≤ fuel →
      (tryDoLoop MaxRetries fn fuel a s).isSome = true := by
  induction fuel with
  | zero =>
    intro a s h1 _
    omega
  | succ fuel ih =>
    intro a s _ hle
    unfold tryDoLoop
    simp only []
    split
    · rfl
    · split
      · rfl
      · rename_i hm
        have hs := ih (a + 1) (fn s a).2.2 (by omega) (by omega)
        cases hr : tryDoLoop MaxRetries fn fuel (a + 1) (fn s a).2.2 with
        | none => simp [hr] at hs
        | some r => rfl

/-- Library function `try.Do` always returns, whatever the callback does: the
bound on the rounds is never used up. -/
theorem tryDo_returns {τ : Type} (MaxRetries : Int)
    (fn : τ → Int → List BootEffect × (Bool × Option String) × τ) (s : τ) :
    (tryDo MaxRetries fn s).isSome = true :=
  tryDoLoop_isSome MaxRetries fn (MaxRetries.toNat + 1) 1 s (by omega) (by omega)

/-- The retry loop against a broker that refuses every connection: from
attempt `a` on it stops at the first attempt that is not below both the
configured attempt count and `MaxRetries`, with an error, after sleeping once
per attempt. -/
theorem tryDoLoop_refused {σ κ μ : Type} (New : σ → κ → Except String μ × σ)
    (hfail : ∀ s c, ∃ err s1, New s c = (Except.error err, s1))
    (MaxRetries : Int) (h : Messaging κ) (fuel : Nat) :
    ∀ (a : Int) (st : σ × Option μ),
      (max a (min h.ConnectionAttempts MaxRetries) - a + 1).toNat ≤ fuel →
      ∃ t e st1, tryDoLoop MaxRetries (connectAttempt New h) fuel a st = some (t, some e, st1) ∧
        attempts t = (max a (min h.ConnectionAttempts MaxRetries) - a + 1).toNat ∧
        slept t = (max a (min h.ConnectionAttempts MaxRetries) - a + 1)
          * max (wrapInt64 (wrapInt64 h.ConnectionRetryInterval * Second)) 0 := by
  induction fuel with
  | zero =>
    intro a st hle
    omega
  | succ fuel ih =>
    intro a st hle
    obtain ⟨err, s1, hnew⟩ := hfail st.1 h.Config
    have hfn : connectAttempt New h st a
        = ([BootEffect.mqNew,
            BootEffect.logPrintln err
              ("Failed to initialize message queue manager, retrying in "
                ++ toString h.ConnectionRetryInterval ++ " seconds, attempt "
                ++ toString a ++ "/" ++ toString h.ConnectionAttempts),
            BootEffect.sleep (wrapInt64 (wrapInt64 h.ConnectionRetryInterval * Second))],
           (decide (a < h.ConnectionAttempts), some err), (s1, none)) := by
      unfold connectAttempt
      simp only [hnew]
    unfold tryDoLoop
    simp only [hfn, Option.isNone_some, Bool.or_false]
    by_cases hc : a < h.ConnectionAttempts
    · by_cases hm : a + 1 > MaxRetries
      · rw [if_neg (by simp [hc]), if_pos hm]
        have h1 : max a (min h.ConnectionAttempts MaxRetries) - a + 1 = 1 := by omega
        refine ⟨_, _, _, rfl, ?_, ?_⟩
        · simp [attempts, h1]
        · simp [slept, h1]
      · obtain ⟨t, e, st1, hrun, hatt, hsl⟩ := ih (a + 1) (s1, none) (by omega)
        rw [if_neg (by simp [hc]), if_neg hm, hrun]
        refine ⟨_, _, _, rfl, ?_, ?_⟩
        · have hk : (max a (min h.ConnectionAttempts MaxRetries) - a + 1).toNat
              = (max (a + 1) (min h.ConnectionAttempts MaxRetries) - (a + 1) + 1).toNat + 1 := by
            omega
          simp [attempts, hatt, hk]
        · have hk : max a (min h.ConnectionAttempts MaxRetries) - a + 1
              = (max (a + 1) (min h.ConnectionAttempts MaxRetries) - (a + 1) + 1) + 1 := by
            omega
          rw [hk]
          show max _ 0 + slept t = _
          rw [hsl]
          ring
    · rw [if_pos (by simp [hc])]
      have h1 : max a (min h.ConnectionAttempts MaxRetries) - a + 1 = 1 := by omega
      refine ⟨_, _, _, rfl, ?_, ?_⟩
      · simp [attempts, h1]
      · simp [slept, h1]

theorem attempts_append (t u : List BootEffect) :
    attempts (t ++ u) = attempts t + attempts u := by
  induction t with
  | nil => simp [attempts]
  | cons e t ih =>
    cases e <;> simp [attempts, ih]
    omega

theorem slept_append (t u : List BootEffect) : slept (t ++ u) = slept t + slept u := by
  induction t with
  | nil => simp [slept]
  | cons e t ih =>
    cases e <;> simp [slept, ih]
    omega

/-- The bootstrap against a broker that refuses every connection ends in the
fatal branch, after `max 1 (min ConnectionAttempts MaxRetries)` attempts and a
sleep after each of them. -/
theorem Consumer_refused {σ κ μ : Type} (New : σ → κ → Except String μ × σ)
    (hfail : ∀ s c, ∃ err s1, New s c = (Except.error err, s1))
    (MaxRetries : Int) (h : Messaging κ) (s : σ) :
    ∃ t s1, Consumer New MaxRetries h s = some (t, BootOutcome.fatal, s1) ∧
      attempts t = (max 1 (min h.ConnectionAttempts MaxRetries)).toNat ∧
      slept t = max 1 (min h.ConnectionAttempts MaxRetries)
        * max (wrapInt64 (wrapInt64 h.ConnectionRetryInterval * Second)) 0 := by
  obtain ⟨t, e, st1, hrun, hatt, hsl⟩ :=
    tryDoLoop_refused New hfail MaxRetries h (MaxRetries.toNat + 1) 1 (s, none) (by omega)
  unfold Consumer tryDo
  rw [hrun]
  refine ⟨_, _, rfl, ?_, ?_⟩
  · rw [attempts_append, hatt]
    simp [attempts]
  · rw [slept_append, hsl]
    simp [slept]

/-- C8 as stated fails.  With 10 attempts and an interval of 30 seconds
against a broker that refuses every connection, the bootstrap makes 10
attempts and sleeps 300 seconds, not 270; with an interval of 9223372037
seconds the duration wraps around and nothing is slept. -/
theorem C8_counterexample :
    (∃ t s1, Consumer refusingBroker 10 (exampleMessaging 10 30) 0
        = some (t, (BootOutcome.fatal : BootOutcome Unit), s1) ∧
      attempts t = 10 ∧ slept t = 300 * Second ∧ slept t ≠ (10 - 1) * 30 * Second) ∧
    (∃ t s1, Consumer refusingBroker 10 (exampleMessaging 2 9223372037) 0
        = some (t, (BootOutcome.fatal : BootOutcome Unit), s1) ∧
      attempts t = 2 ∧ slept t = 0 ∧ slept t ≠ (2 - 1) * 9223372037 * Second) := by
  refine ⟨⟨_, _, rfl, ?_, ?_, ?_⟩, ⟨_, _, rfl, ?_, ?_, ?_⟩⟩ <;> decide

/-- C8, amended: with `ConnectionAttempts = N` at least 1 and at most
`try.MaxRetries`, and a retry interval of `I` seconds, `0 ≤ I`, that fits a
duration, a bootstrap whose every `mq.New` fails makes exactly `N` connection
attempts, sleeps `I` seconds after each of them, the last included, `N * I`
seconds in total, and ends in the fatal branch without reaching the
consumption loop. -/
theorem C8_bootstrap_fatal {σ κ μ : Type} (New : σ → κ → Except String μ × σ)
    (MaxRetries : Int) (h : Messaging κ) (s : σ)
    (hfail : ∀ s c, ∃ err s1, New s c = (Except.error err, s1))
    (hN : 1 ≤ h.ConnectionAttempts) (hM : h.ConnectionAttempts ≤ MaxRetries)
    (hI : 0 ≤ h.ConnectionRetryInterval) (hfit : h.ConnectionRetryInterval * Second < 2 ^ 63) :
    ∃ t s1, Consumer New MaxRetries h s = some (t, BootOutcome.fatal, s1) ∧
      (attempts t : Int) = h.ConnectionAttempts ∧
      slept t = h.ConnectionAttempts * (h.ConnectionRetryInterval * Second) := by
  obtain ⟨t, s1, hrun, hatt, hsl⟩ := Consumer_refused New hfail MaxRetries h s
  refine ⟨t, s1, hrun, ?_, ?_⟩
  · rw [hatt]
    omega
  · rw [hsl, sleep_duration _ hI hfit]
    have h1 : max 1 (min h.ConnectionAttempts MaxRetries) = h.ConnectionAttempts := by
      omega
    have h2 : max (h.ConnectionRetryInterval * Second) 0 = h.ConnectionRetryInterval * Second := by
      have : 0 ≤ h.ConnectionRetryInterval * Second := by
        unfold Second
        omega
      omega
    rw [h1, h2]

/-- C8 at a concrete input: 10 attempts, 30 seconds, `try.MaxRetries` at its
default of 10, a broker that refuses every connection: 10 attempts and 300
seconds of sleep. -/
theorem C8_bootstrap_fatal_witness :
    ∃ t s1, Consumer refusingBroker 10 (exampleMessaging 10 30) 0
        = some (t, (BootOutcome.fatal : BootOutcome Unit), s1) ∧
      (attempts t : Int) = 10 ∧ slept t = 10 * (30 * Second) :=
  C8_bootstrap_fatal refusingBroker 10 (exampleMessaging 10 30) 0
    (fun _ _ => ⟨_, _, rfl⟩) (by decide) (by decide) (by decide) (by decide)

/-! ### Log forwarding -/

/-- C9, evaluated on the code: when `json.Marshal` fails and the producer is
obtained, `toLagoonLogs` still calls `Produce`, once, with the bytes that
`Marshal` returned beside its error. -/
theorem C9_marshal_error_still_produces {σ M : Type} (Marshal : M → List UInt8 × Option String)
    (AsyncProducer : σ → String → Option String × σ) (EnableDebug : Bool) (message : M)
    (s s1 : σ) (err : String) (hmarshal : (Marshal message).2 = some err)
    (hproducer : AsyncProducer s "lagoon-logs" = (none, s1)) :
    produced (toLagoonLogs Marshal AsyncProducer EnableDebug message s).1
      = [(Marshal message).1] := by
  unfold toLagoonLogs
  simp only [hmarshal, hproducer]
  cases EnableDebug <;> rfl

/-- C9 at a concrete input: a message that `json.Marshal` rejects is
forwarded as an empty byte string. -/
theorem C9_marshal_error_still_produces_witness :
    produced (toLagoonLogs failingMarshal (exampleProducer none) true () ()).1 = [[]] :=
  C9_marshal_error_still_produces failingMarshal (exampleProducer none) true () () ()
    "json: unsupported value: NaN" rfl rfl

/-- When the async producer cannot be obtained, `toLagoonLogs` produces
nothing, whatever `json.Marshal` returned. -/
theorem toLagoonLogs_no_producer {σ M : Type} (Marshal : M → List UInt8 × Option String)
    (AsyncProducer : σ → String → Option String × σ) (EnableDebug : Bool) (message : M)
    (s s1 : σ) (err : String) (hproducer : AsyncProducer s "lagoon-logs" = (some err, s1)) :
    produced (toLagoonLogs Marshal AsyncProducer EnableDebug message s).1 = [] := by
  unfold toLagoonLogs
  simp only [hproducer]
  cases (Marshal message).2 <;> cases EnableDebug <;> rfl

/-- The producer lookup fails on a message that marshals with an error:
nothing is produced. -/
theorem toLagoonLogs_no_producer_witness :
    produced (toLagoonLogs failingMarshal (exampleProducer (some "no such producer")) true
      () ()).1 = [] :=
  toLagoonLogs_no_producer failingMarshal (exampleProducer (some "no such producer")) true
    () () () "no such producer" rfl

end Handler
